import Mathlib

/-!
Verification of the keycloakify CLI dispatcher (`src/bin/main.ts`).

The file embeds, as executable Lean definitions, the pieces of the dispatcher
the specification talks about: the option registry built during catalog
construction, the `skip` predicate guarding every command's task, the
`start-keycloak` handler's keycloak-version validation block, the top-level
`onException` sink, and the fallback router that re-spawns the CLI with the
default `build` subcommand.  Theorems about these definitions follow.
-/

/-- Output channel of a console write (`console.log` vs `console.error`). -/
inductive Channel
  | stdout
  | stderr
deriving DecidableEq, Repr

/-- A process termination: exit code together with the final console write
(its channel, its text, and whether it was wrapped in `chalk.red`). -/
structure ExitEvent where
  code : Nat
  channel : Channel
  message : String
  highlighted : Bool
deriving DecidableEq, Repr

/-- An option declaration: internal key plus user-facing flag names
(a long name and an optional short name), as passed to `.option({...})`. -/
structure OptionDef where
  key : String
  longName : String
  shortName : Option String := none
deriving DecidableEq, Repr

/-- A command declaration of the catalog: name and declared options. -/
structure CommandDef where
  name : String
  options : List OptionDef := []
deriving DecidableEq, Repr

/-- The program-level option registered on `program` itself:
`--project` / `-p` (key `projectDirPath`). -/
def projectOption : OptionDef :=
  { key := "projectDirPath", longName := "project", shortName := some "p" }

/-- The command catalog, in registration order, with each command's declared
options in declaration order (from the chain of `program.command(...)` calls). -/
def commands : List CommandDef :=
  [ { name := "build" },
    { name := "start-keycloak",
      options :=
        [ { key := "port", longName := "port" },
          { key := "keycloakVersion", longName := "keycloak-version" },
          { key := "realmJsonFilePath", longName := "import" } ] },
    { name := "eject-page" },
    { name := "add-story" },
    { name := "initialize-email-theme" },
    { name := "initialize-account-theme" },
    { name := "copy-keycloak-resources-to-public" },
    { name := "update-kc-gen" },
    { name := "postinstall" },
    { name := "eject-file",
      options := [ { key := "file", longName := "file" } ] } ]

/-- The flag-name tokens an option definition pushes onto `optionsKeys`:
`optionsKeys.push(long, short)` for a long/short pair, `optionsKeys.push(name)`
for a single name. -/
def flagNamesOf (o : OptionDef) : List String :=
  o.longName :: (match o.shortName with | some s => [s] | none => [])

/-- The option registry `optionsKeys`, as it stands after catalog
construction: the program-level option's tokens first, then every command's
options' tokens in registration order. -/
def optionsKeys : List String :=
  flagNamesOf projectOption ++ commands.flatMap (fun c => c.options.flatMap flagNamesOf)

/-- Whether some command of the catalog (or the program-level option)
registers the flag token `k`.  This is the catalog-level notion of
"recognized option"; it is defined from the command list, not from
`optionsKeys`, so that agreement of the two is a theorem. -/
def registeredBySomeCommand (k : String) : Bool :=
  (flagNamesOf projectOption).contains k
    || commands.any (fun c => c.options.any (fun o => (flagNamesOf o).contains k))

/-- Result of the `skip` gate: either the process terminated via
`process.exit`, or `skip` returned a boolean to the task runner. -/
inductive SkipResult
  | exit (e : ExitEvent)
  | ret (b : Bool)
deriving DecidableEq, Repr

/-- The `skip` predicate attached to every command's task.  `suppliedKeys` is
`Object.keys(argv.options)` in iteration order.  The first key missing from
`optionsKeys` triggers a diagnostic on stderr and `process.exit(1)`;
otherwise `skip` returns `false`. -/
def skip (suppliedKeys : List String) : SkipResult :=
  match suppliedKeys.find? (fun key => !(optionsKeys.contains key)) with
  | some key =>
      .exit
        { code := 1
          channel := .stderr
          message :=
            "keycloakify: Unrecognized option: "
              ++ (if key.length = 1 then "-" else "--") ++ key
          highlighted := false }
  | none => .ret false

/-- The top-level `onException` sink passed to `termost`: it logs the error
to stderr (`console.error`) and exits with code 1. -/
def onException (error : String) : ExitEvent :=
  { code := 1, channel := .stderr, message := error, highlighted := false }

/-- A parsed semantic version. -/
structure ParsedVersion where
  major : Nat
  minor : Nat
  patch : Nat
  metadata : String
deriving DecidableEq, Repr

/-- Splits a character list at every occurrence of `sep`. -/
def splitAtSep (sep : Char) : List Char → List (List Char)
  | [] => [[]]
  | c :: cs =>
      match splitAtSep sep cs with
      | r :: rs => if c = sep then [] :: r :: rs else (c :: r) :: rs
      | [] => if c = sep then [[], []] else [[c]]

/-- Reads a nonempty all-digit character list as a natural number. -/
def digitsToNat? (cs : List Char) : Option Nat :=
  if cs ≠ [] ∧ cs.all Char.isDigit then
    some (cs.foldl (fun n c => 10 * n + (c.toNat - 48)) 0)
  else none

/-- Modelled from the spec: `SemVer.parse` lives in `src/bin/tools/SemVer.ts`,
which is not among the provided sources.  Per the spec it "fails with
`InvalidVersionFormat` when the input does not match the semantic-versioning
grammar (major.minor.patch, optional pre-release/build metadata)". -/
def SemVer.parse (input : String) : Except String ParsedVersion :=
  let cs := input.toList
  let core := cs.takeWhile (fun c => c != '-' && c != '+')
  let metadata := String.mk (cs.drop core.length)
  match splitAtSep '.' core with
  | [a, b, c] =>
      match digitsToNat? a, digitsToNat? b, digitsToNat? c with
      | some major, some minor, some patch =>
          .ok { major := major, minor := minor, patch := patch, metadata := metadata }
      | _, _, _ => .error "InvalidVersionFormat"
  | _ => .error "InvalidVersionFormat"

/-- The runtime value of the `keycloakVersion` option as typed in the source:
`string | number | undefined`. -/
inductive KeycloakVersionOpt
  | undef
  | num (n : Int)
  | str (s : String)
deriving DecidableEq, Repr

/-- JS string interpolation of the option value (`${keycloakVersion}`). -/
def kvToString : KeycloakVersionOpt → String
  | .undef => "undefined"
  | .num n => toString n
  | .str s => s

/-- The `isValidVersion` IIFE of the `start-keycloak` handler, paired with a
trace of whether `SemVer.parse` was invoked.  The JS value is
`false | undefined`: `some false` models `return false`, `none` models the
bare `return;` (i.e. `undefined`) on the success path of the try block. -/
def isValidVersion (keycloakVersion : KeycloakVersionOpt) : Option Bool × Bool :=
  match keycloakVersion with
  | .num _ => (some false, false)
  | .str s =>
      match SemVer.parse s with
      | .error _ => (some false, true)
      | .ok _ => (none, true)
  | .undef => (some false, false)

/-- JS truthiness of a `false | undefined` value: both are falsy. -/
def jsTruthy : Option Bool → Bool
  | some b => b
  | none => false

/-- The options forwarded to the imported `start-keycloak` `command` when the
handler reaches the `await command({...})` call. -/
structure StartKeycloakCommandArgs where
  keycloakVersion : Option String
  port : Option Int
  realmJsonFilePath : Option String
deriving DecidableEq, Repr

/-- Outcome of the `start-keycloak` handler body. -/
inductive HandlerOutcome
  | exited (e : ExitEvent)
  | invokedCommand (args : StartKeycloakCommandArgs)
deriving DecidableEq, Repr

/-- The value the handler would pass through for `keycloakVersion` after the
`assert(is<string | undefined>(keycloakVersion))` cast. -/
def kvAsStringOpt : KeycloakVersionOpt → Option String
  | .str s => some s
  | _ => none

/-- The red two-part message printed by `console.log(chalk.red(...))` when the
version is judged invalid. -/
def invalidVersionMessage (kv : KeycloakVersionOpt) : String :=
  "Invalid Keycloak version: " ++ kvToString kv
    ++ " It should be a valid semver version example: 26.0.4"

/-- The `start-keycloak` handler's `validate_keycloak_version` labeled block
and the subsequent `command` invocation, paired with the `SemVer.parse`-called
trace.  `undefined` breaks out of the block at once; otherwise the
`isValidVersion` value is tested for truthiness (`if (isValidVersion) break`),
and a falsy value falls through to the red message and `process.exit(1)`. -/
def startKeycloakHandlerR (keycloakVersion : KeycloakVersionOpt) (port : Option Int)
    (realmJsonFilePath : Option String) : HandlerOutcome × Bool :=
  match keycloakVersion with
  | .undef =>
      (.invokedCommand
        { keycloakVersion := none, port := port, realmJsonFilePath := realmJsonFilePath },
       false)
  | kv =>
      let (valid, parseCalled) := isValidVersion kv
      if jsTruthy valid then
        (.invokedCommand
          { keycloakVersion := kvAsStringOpt kv, port := port
            realmJsonFilePath := realmJsonFilePath },
         parseCalled)
      else
        (.exited
          { code := 1, channel := .stdout
            message := invalidVersionMessage kv, highlighted := true },
         parseCalled)

/-- Projection of the handler to its outcome. -/
def startKeycloakHandler (keycloakVersion : KeycloakVersionOpt) (port : Option Int)
    (realmJsonFilePath : Option String) : HandlerOutcome :=
  (startKeycloakHandlerR keycloakVersion port realmJsonFilePath).1

/-- `s.startsWith("-")`: whether the first character of `s` is a dash. -/
def startsWithDash (s : String) : Bool :=
  match s.toList with
  | [] => false
  | c :: _ => c = '-'

/-- The fallback router's routing condition on `rest = process.argv.slice(2)`:
`rest.length === 0 || (rest[0].startsWith("-") && rest[0] !== "--help" && rest[0] !== "-h")`. -/
def routesToFallback : List String → Bool
  | [] => true
  | r0 :: _ => startsWithDash r0 && r0 != "--help" && r0 != "-h"

/-- Arguments of a `child_process.spawnSync` call. -/
structure SpawnSyncCall where
  cmd : String
  args : List String
  stdio : String
deriving DecidableEq, Repr

/-- The spawn the fallback router performs:
`spawnSync("npx", ["keycloakify", "build", ...rest], { stdio: "inherit" })`. -/
def fallbackSpawnCall (rest : List String) : SpawnSyncCall :=
  { cmd := "npx", args := "keycloakify" :: "build" :: rest, stdio := "inherit" }

/-- The fallback router: given `rest` and the status the spawned child would
report (`null` modelled as `none`), yields `none` when control falls through
to the dispatcher, and otherwise the spawn call together with the exit code
of `process.exit(status ?? 1)`. -/
def fallbackRouter (rest : List String) (childStatus : Option Int) :
    Option (SpawnSyncCall × Int) :=
  if routesToFallback rest then some (fallbackSpawnCall rest, childStatus.getD 1)
  else none

/-! ## Helper lemmas -/

/-- A string absent from the registry makes `contains` false. -/
theorem contains_optionsKeys_eq_false (k : String) (h : k ∉ optionsKeys) :
    optionsKeys.contains k = false := by
  cases hc : optionsKeys.contains k with
  | false => rfl
  | true => exact absurd (List.elem_iff.mp hc) h

/-- When every supplied key is registered, `skip` returns `false`. -/
theorem skip_eq_ret_false (keys : List String) (h : ∀ k ∈ keys, k ∈ optionsKeys) :
    skip keys = .ret false := by
  have hnone : keys.find? (fun key => !(optionsKeys.contains key)) = none := by
    apply List.find?_eq_none.mpr
    intro x hx
    have hc : optionsKeys.contains x = true := List.elem_iff.mpr (h x hx)
    show ¬ (!(optionsKeys.contains x)) = true
    rw [hc]
    decide
  unfold skip
  rw [hnone]

/-- `find?` over a recognized block followed by an unrecognized key returns
that key: it is the first absent one. -/
theorem find?_first_absent (pre : List String) (k : String) (post : List String)
    (hpre : ∀ j ∈ pre, j ∈ optionsKeys) (hk : k ∉ optionsKeys) :
    (pre ++ k :: post).find? (fun key => !(optionsKeys.contains key)) = some k := by
  induction pre with
  | nil =>
      apply List.find?_cons_of_pos
      show (!(optionsKeys.contains k)) = true
      rw [contains_optionsKeys_eq_false k hk]
      decide
  | cons j pre ih =>
      have hj : optionsKeys.contains j = true :=
        List.elem_iff.mpr (hpre j (List.mem_cons_self j pre))
      rw [List.cons_append, List.find?_cons_of_neg]
      · exact ih fun x hx => hpre x (List.mem_cons_of_mem _ hx)
      · show ¬ (!(optionsKeys.contains j)) = true
        rw [hj]
        decide

/-- The registry built by catalog construction recognizes exactly the tokens
registered by the program-level option or by some command of the catalog. -/
theorem registered_iff_mem_optionsKeys (k : String) :
    registeredBySomeCommand k = true ↔ k ∈ optionsKeys := by
  simp [registeredBySomeCommand, optionsKeys, List.any_eq_true, List.mem_append,
        List.mem_flatMap, List.elem_iff]

/-! ## Claim theorems -/

/-- C3: the skip predicate scans the supplied option keys in iteration order;
when some key is absent from the option registry it exits with code 1 after
writing `keycloakify: Unrecognized option: {dash-form}{key}` to stderr, the
dash form being `-` for a length-1 key and `--` otherwise, for the FIRST
absent key; when every supplied key is registered (in particular when no key
is supplied) it returns `false` and the handler proceeds. -/
theorem skip_unrecognized_option_spec (keys : List String) :
    ((∀ k ∈ keys, k ∈ optionsKeys) → skip keys = .ret false)
  ∧ (∀ pre k post, keys = pre ++ k :: post → (∀ j ∈ pre, j ∈ optionsKeys) →
      k ∉ optionsKeys →
      skip keys = .exit
        { code := 1
          channel := .stderr
          message := "keycloakify: Unrecognized option: "
            ++ (if k.length = 1 then "-" else "--") ++ k
          highlighted := false }) := by
  constructor
  · exact skip_eq_ret_false keys
  · intro pre k post hkeys hpre hk
    subst hkeys
    unfold skip
    rw [find?_first_absent pre k post hpre hk]

/-- Witness for C3: the empty bag proceeds; a supplied recognized key
followed by the unrecognized `bogus` exits 1 naming `--bogus`; the
unrecognized one-letter key `z` exits 1 naming `-z`. -/
theorem skip_unrecognized_option_spec_witness :
    skip [] = .ret false
  ∧ skip ["project", "bogus"] = .exit
      { code := 1, channel := .stderr
        message := "keycloakify: Unrecognized option: --bogus", highlighted := false }
  ∧ skip ["z"] = .exit
      { code := 1, channel := .stderr
        message := "keycloakify: Unrecognized option: -z", highlighted := false } := by
  refine ⟨(skip_unrecognized_option_spec []).1 (by decide), ?_, ?_⟩
  · have h := (skip_unrecognized_option_spec ["project", "bogus"]).2
      ["project"] "bogus" [] rfl (by decide) (by decide)
    exact h.trans (by decide)
  · have h := (skip_unrecognized_option_spec ["z"]).2 [] "z" [] rfl (by decide) (by decide)
    exact h.trans (by decide)

/-- C9: the skip gate never returns `true`: on every options bag its result
is either the returned value `false` or process termination with exit
code 1, so the "skip the task but keep running" outcome is unreachable. -/
theorem skip_never_returns_true (suppliedKeys : List String) :
    skip suppliedKeys = .ret false
      ∨ ∃ e, skip suppliedKeys = .exit e ∧ e.code = 1 := by
  rcases h : suppliedKeys.find? (fun key => !(optionsKeys.contains key)) with _ | k
  · refine Or.inl ?_
    unfold skip
    rw [h]
  · refine Or.inr
      ⟨⟨1, .stderr,
        "keycloakify: Unrecognized option: " ++ (if k.length = 1 then "-" else "--") ++ k,
        false⟩, ?_, rfl⟩
    unfold skip
    rw [h]

/-- C6: flag recognition is global rather than per-command: a supplied bag
whose every token is registered by the program-level option or by SOME
command of the catalog never triggers the unrecognized-option exit, whatever
command was invoked; conversely a supplied token registered by no command
makes the gate exit with code 1. -/
theorem flag_recognition_is_global (keys : List String) :
    ((∀ k ∈ keys, registeredBySomeCommand k = true) → skip keys = .ret false)
  ∧ (∀ k ∈ keys, registeredBySomeCommand k = false →
      ∃ e, skip keys = .exit e ∧ e.code = 1) := by
  constructor
  · intro h
    exact skip_eq_ret_false keys fun x hx => (registered_iff_mem_optionsKeys x).mp (h x hx)
  · intro k hkmem hreg
    have hk : k ∉ optionsKeys := by
      intro hmem
      rw [(registered_iff_mem_optionsKeys k).mpr hmem] at hreg
      cases hreg
    have hsome : ∃ y, keys.find? (fun key => !(optionsKeys.contains key)) = some y := by
      apply Option.isSome_iff_exists.mp
      apply List.find?_isSome.mpr
      refine ⟨k, hkmem, ?_⟩
      show (!(optionsKeys.contains k)) = true
      rw [contains_optionsKeys_eq_false k hk]
      decide
    obtain ⟨y, hy⟩ := hsome
    refine
      ⟨⟨1, .stderr,
        "keycloakify: Unrecognized option: " ++ (if y.length = 1 then "-" else "--") ++ y,
        false⟩, ?_, rfl⟩
    unfold skip
    rw [hy]

/-- Witness for C6: `file` is registered (by `eject-file` only), the invoked
command `eject-page` declares no option of its own, and yet supplying `file`
proceeds; the token `zzz`, registered by no command, exits with code 1. -/
theorem flag_recognition_is_global_witness :
    registeredBySomeCommand "file" = true
  ∧ (∀ c ∈ commands, c.name = "eject-page" → c.options = [])
  ∧ skip ["file"] = .ret false
  ∧ (∃ e, skip ["zzz"] = .exit e ∧ e.code = 1) := by
  refine ⟨by decide, by decide, ?_, ?_⟩
  · exact (flag_recognition_is_global ["file"]).1 (by decide)
  · exact (flag_recognition_is_global ["zzz"]).2 "zzz" (by decide) (by decide)

/-- C10: after catalog construction the option registry holds exactly the six
tokens `project`, `p`, `port`, `keycloak-version`, `import`, `file`, in
registration order and each exactly once (no duplicates); the registry is a
pure value of the catalog, so nothing during dispatch can alter it. -/
theorem optionsKeys_contents :
    optionsKeys = ["project", "p", "port", "keycloak-version", "import", "file"]
      ∧ optionsKeys.Nodup := by
  constructor <;> decide

/-- C1 (code bug): `SemVer.parse` accepts the string `26.0.4`, yet the
`start-keycloak` handler still prints the red invalid-version message to
stdout and exits with code 1 instead of proceeding to the command with the
value unchanged: the `isValidVersion` IIFE ends in a bare `return;`, so its
value is `undefined` (falsy) on the success path and
`if (isValidVersion) break validate_keycloak_version;` never breaks. -/
theorem startKeycloak_valid_version_still_exits_one :
    (∃ v, SemVer.parse "26.0.4" = .ok v)
  ∧ startKeycloakHandler (.str "26.0.4") none none =
      .exited
        ⟨1, .stdout,
         "Invalid Keycloak version: 26.0.4 It should be a valid semver version example: 26.0.4",
         true⟩
  ∧ (startKeycloakHandlerR (.str "26.0.4") none none).2 = true := by
  refine ⟨⟨⟨26, 0, 4, ""⟩, rfl⟩, by decide, by decide⟩

/-- C2: a numeric `keycloakVersion`, or a string one that `SemVer.parse`
rejects, makes the `start-keycloak` handler print the red two-part
invalid-version message to stdout (not stderr) and exit with code 1, never
reaching the imported `command`. -/
theorem startKeycloak_invalid_version_exits_one (kv : KeycloakVersionOpt)
    (port : Option Int) (realm : Option String)
    (h : (∃ n, kv = .num n) ∨ ∃ s, kv = .str s ∧ ∃ msg, SemVer.parse s = .error msg) :
    startKeycloakHandler kv port realm =
      .exited
        ⟨1, .stdout,
         "Invalid Keycloak version: " ++ kvToString kv
           ++ " It should be a valid semver version example: 26.0.4",
         true⟩ := by
  rcases h with ⟨n, rfl⟩ | ⟨s, rfl, msg, hmsg⟩
  · rfl
  · unfold startKeycloakHandler startKeycloakHandlerR
    simp [isValidVersion, hmsg, jsTruthy, invalidVersionMessage]

/-- Witness for C2: `not-a-version` is rejected by the parser and the
handler exits 1 with the red stdout message; the command is not invoked. -/
theorem startKeycloak_invalid_version_exits_one_witness :
    SemVer.parse "not-a-version" = .error "InvalidVersionFormat"
  ∧ startKeycloakHandler (.str "not-a-version") none none =
      .exited
        ⟨1, .stdout,
         "Invalid Keycloak version: not-a-version It should be a valid semver version example: 26.0.4",
         true⟩ := by
  refine ⟨rfl, ?_⟩
  have h := startKeycloak_invalid_version_exits_one (.str "not-a-version") none none
    (Or.inr ⟨"not-a-version", rfl, "InvalidVersionFormat", rfl⟩)
  exact h.trans (by decide)

/-- C7: with `keycloakVersion` absent (`undefined`) the validation block is
skipped entirely: `SemVer.parse` is not invoked (trace `false`), nothing is
printed and no exit occurs, and the handler reaches the command with
`keycloakVersion` still `undefined`. -/
theorem startKeycloak_undefined_version_proceeds (port : Option Int)
    (realm : Option String) :
    startKeycloakHandlerR .undef port realm =
      (.invokedCommand { keycloakVersion := none, port := port, realmJsonFilePath := realm },
       false) := rfl

/-- C4: the fallback router routes exactly when `rest` is empty, or its first
element starts with a dash and is neither `--help` nor `-h`; in particular a
first argument of `--help` or `-h` never routes to fallback. -/
theorem fallback_routing_condition (rest : List String) :
    (routesToFallback rest = true ↔
      rest = [] ∨ ∃ r0 t, rest = r0 :: t ∧ startsWithDash r0 = true
        ∧ r0 ≠ "--help" ∧ r0 ≠ "-h")
  ∧ (∀ t, routesToFallback ("--help" :: t) = false
        ∧ routesToFallback ("-h" :: t) = false) := by
  constructor
  · cases rest with
    | nil => simp [routesToFallback]
    | cons r0 t =>
        simp only [routesToFallback, Bool.and_eq_true, bne_iff_ne]
        constructor
        · rintro ⟨⟨hd, h1⟩, h2⟩
          exact Or.inr ⟨r0, t, rfl, hd, h1, h2⟩
        · rintro (h | ⟨r0', t', heq, hd, h1, h2⟩)
          · exact absurd h (List.cons_ne_nil r0 t)
          · cases heq
            exact ⟨⟨hd, h1⟩, h2⟩
  · intro t
    constructor <;> simp [routesToFallback]

/-- Witness for C4: no arguments routes, `--help` alone does not, and a bare
option such as `--project foo` routes. -/
theorem fallback_routing_condition_witness :
    routesToFallback [] = true
  ∧ routesToFallback ["--help"] = false
  ∧ routesToFallback ["--project", "foo"] = true := by
  refine ⟨(fallback_routing_condition []).1.mpr (Or.inl rfl), ?_, ?_⟩
  · exact ((fallback_routing_condition []).2 []).1
  · exact (fallback_routing_condition ["--project", "foo"]).1.mpr
      (Or.inr ⟨"--project", ["foo"], rfl, by decide, by decide, by decide⟩)

/-- C5: when the router routes, it performs one synchronous spawn of the CLI
through `npx` with arguments `["keycloakify", "build", ...rest]` — i.e. the
same binary running `build` with the original tokens — with inherited stdio,
and exits with the child's status, or 1 when the status is `null`. -/
theorem fallback_action_spec (rest : List String) (childStatus : Option Int)
    (h : routesToFallback rest = true) :
    fallbackRouter rest childStatus =
      some (⟨"npx", "keycloakify" :: "build" :: rest, "inherit"⟩,
            match childStatus with | some n => n | none => 1) := by
  unfold fallbackRouter
  rw [h]
  cases childStatus <;> rfl

/-- Witness for C5: a zero-argument invocation routes, re-spawns with
`["keycloakify", "build"]`, and with no usable child status exits 1. -/
theorem fallback_action_spec_witness :
    routesToFallback [] = true
  ∧ fallbackRouter [] none = some (⟨"npx", ["keycloakify", "build"], "inherit"⟩, 1) := by
  refine ⟨by decide, ?_⟩
  exact fallback_action_spec [] none (by decide)

/-- C8: every failure path of the dispatcher exits with code 1: the
unrecognized-option exit of the skip gate, the invalid-version exit of the
`start-keycloak` handler, the top-level `onException` sink, and the fallback
exit when the child furnished no status. -/
theorem all_failure_paths_exit_one :
    (∀ keys e, skip keys = .exit e → e.code = 1)
  ∧ (∀ kv port realm e, startKeycloakHandler kv port realm = .exited e → e.code = 1)
  ∧ (∀ err, (onException err).code = 1)
  ∧ (∀ rest call code, fallbackRouter rest none = some (call, code) → code = 1) := by
  refine ⟨?_, ?_, fun _ => rfl, ?_⟩
  · intro keys e he
    rcases h : keys.find? (fun key => !(optionsKeys.contains key)) with _ | k
    all_goals unfold skip at he
    all_goals rw [h] at he
    · cases he
    · cases he
      rfl
  · intro kv port realm e he
    cases kv with
    | undef => cases he
    | num n => cases he; rfl
    | str s =>
        unfold startKeycloakHandler startKeycloakHandlerR at he
        rcases hp : SemVer.parse s with msg | v
        all_goals simp [isValidVersion, hp, jsTruthy] at he
        · rw [← he]
        · rw [← he]
  · intro rest call code hsome
    unfold fallbackRouter at hsome
    rcases h : routesToFallback rest with _ | _
    · rw [h] at hsome
      cases hsome
    · rw [h] at hsome
      simp at hsome
      exact hsome.2.symm

/-- Witness for C8: each modelled failure path evaluated at a concrete input
yields exit code 1 via the theorem. -/
theorem all_failure_paths_exit_one_witness :
    (∃ e, skip ["bogus"] = .exit e ∧ e.code = 1)
  ∧ (∃ e, startKeycloakHandler (.num 3) none none = .exited e ∧ e.code = 1)
  ∧ (onException "boom").code = 1
  ∧ (∃ call, fallbackRouter [] none = some (call, 1)) := by
  refine ⟨⟨_, rfl, all_failure_paths_exit_one.1 ["bogus"] _ rfl⟩,
    ⟨_, rfl, all_failure_paths_exit_one.2.1 (.num 3) none none _ rfl⟩,
    all_failure_paths_exit_one.2.2.1 "boom", ⟨_, rfl⟩⟩
